import Mathlib

/-!
Shallow embedding of the iso7816 library (command-apdu.ts, response-apdu.ts,
and the Iso7816 application class), together with theorems checking the
natural-language specification against it.

Byte buffers are modelled as `List Nat`; a JavaScript `Buffer` constrains its
entries to 0..255, which `Buffer.from` enforces by reducing numbers mod 256.
-/

set_option maxRecDepth 10000

namespace Iso7816

/-- Lowercase hexadecimal digit for a value below 16, as produced by
JavaScript number-to-hex conversions. -/
def hexDigit (n : Nat) : Char :=
  if n < 10 then Char.ofNat (48 + n) else Char.ofNat (87 + n)

/-- Two-character lowercase hexadecimal rendering of one byte. `Buffer`
entries are always below 256; the mod 256 mirrors how a number is reduced
when stored into a `Buffer`. -/
def hexByte (b : Nat) : String :=
  let v := b % 256
  String.mk [hexDigit (v / 16), hexDigit (v % 16)]

/-- Hex dump of a byte buffer, as the Buffer hex dump produces it:
the concatenation of the two-character renderings of each byte. -/
def hexString (bytes : List Nat) : String :=
  String.join (bytes.map hexByte)

/-- Numeric value of one hexadecimal character, as `parseInt(s, 16)`
assigns to it (the strings this library parses are always valid
lowercase hex, where the fallback 0 branch is unreachable). -/
def hexVal (c : Char) : Nat :=
  if 48 ≤ c.toNat ∧ c.toNat ≤ 57 then c.toNat - 48
  else if 97 ≤ c.toNat ∧ c.toNat ≤ 102 then c.toNat - 87
  else if 65 ≤ c.toNat ∧ c.toNat ≤ 70 then c.toNat - 55
  else 0

/-- Value of a hexadecimal string, as `parseInt(s, 16)` computes it on a
valid hex string: fold over the characters accumulating base-16 digits. -/
def parseHexNat (s : String) : Nat :=
  s.data.foldl (fun a c => 16 * a + hexVal c) 0

/-! ## CommandApdu (src/command-apdu.ts) -/

/-- Options accepted by the `CommandApdu` constructor. `data` and `size`
are optional; `le` defaults to 0 when absent, exactly as the TypeScript
destructuring `le = 0` does, so it is modelled with that default value. -/
structure CommandApduOptions where
  cla : Nat
  ins : Nat
  p1 : Nat
  p2 : Nat
  data : Option (List Nat) := none
  le : Nat := 0
  size : Option Nat := none
deriving Repr, DecidableEq

/-- A constructed command APDU: the `_bytes` array built by the
constructor. -/
structure CommandApdu where
  _bytes : List Nat
deriving Repr, DecidableEq

/-- The local `size` variable computed by the four-case shape of the constructor
if-chain. JavaScript truthiness: a supplied `size` of 0 counts as absent
(`!size`), `le` counts as absent exactly when it is 0 (`!le`), and `data`
counts as absent exactly when the field is missing (an empty array is
truthy). The computed value is never used afterwards. -/
def computedSize (o : CommandApduOptions) : Nat :=
  let given := match o.size with
    | some s => s
    | none => 0
  if given ≠ 0 then given
  else match o.data with
    | none => if o.le = 0 then 4 else 4 + 2
    | some d => d.length + 5 + 4

/-- The `_bytes` array built by the constructor: push `cla`, `ins`, `p1`,
`p2`; if `data` is present push `lc = data.length` then the data bytes;
finally always push `le`. -/
def mkBytes (o : CommandApduOptions) : List Nat :=
  let header := [o.cla, o.ins, o.p1, o.p2]
  let withData := match o.data with
    | some d => header ++ (d.length :: d)
    | none => header
  withData ++ [o.le]

/-- The `CommandApdu` constructor / `createCommandApdu` factory. -/
def mkCommandApdu (o : CommandApduOptions) : CommandApdu :=
  { _bytes := mkBytes o }

namespace CommandApdu

/-- Method `toByteArray()`: the raw `_bytes` array. -/
def toByteArray (c : CommandApdu) : List Nat :=
  c._bytes

/-- Method `toBuffer()`: `Buffer.from(_bytes)` reduces each entry mod 256. -/
def toBuffer (c : CommandApdu) : List Nat :=
  c._bytes.map (· % 256)

/-- Method `toString()`: lowercase hex of the bytes (via hexify). -/
def toHexString (c : CommandApdu) : String :=
  hexString c._bytes

/-- Method `setLe(le)`: pop the last element of `_bytes`, then push `le`. -/
def setLe (c : CommandApdu) (le : Nat) : CommandApdu :=
  { _bytes := c._bytes.dropLast ++ [le] }

end CommandApdu

/-! ## ResponseApdu (src/response-apdu.ts) -/

/-- A parsed response APDU. The `_data` hex string stored by the
constructor is a pure function of the buffer (its hex dump)
and is recovered by `dataHex`. -/
structure ResponseApdu where
  _buffer : List Nat
deriving Repr, DecidableEq

/-- The error message thrown for a buffer of fewer than 2 bytes. -/
def malformedResponseMessage : String :=
  "Response APDU must contain at least 2 bytes (SW1 and SW2)"

/-- The `ResponseApdu` constructor / `createResponseApdu` factory: throws
for buffers shorter than 2 bytes, otherwise stores the buffer. -/
def responseApdu (buffer : List Nat) : Except String ResponseApdu :=
  if buffer.length < 2 then Except.error malformedResponseMessage
  else Except.ok { _buffer := buffer }

namespace ResponseApdu

/-- The `_data` field: hex dump of the stored buffer. -/
def dataHex (r : ResponseApdu) : String :=
  hexString r._buffer

/-- Method `getStatusCode()`: `_data.slice(-4)`, the last four hex
characters, i.e. the hex of the last two bytes. -/
def getStatusCode (r : ResponseApdu) : String :=
  let s := r.dataHex
  s.drop (s.length - 4)

/-- Private `getSW1()`: `_data.slice(-4, -2)`. -/
def getSW1 (r : ResponseApdu) : String :=
  let s := r.dataHex
  (s.drop (s.length - 4)).take 2

/-- Private `getSW2()`: `_data.slice(-2)`. -/
def getSW2 (r : ResponseApdu) : String :=
  let s := r.dataHex
  s.drop (s.length - 2)

/-- Method `isOk()`: the status code equals 9000. -/
def isOk (r : ResponseApdu) : Bool :=
  r.getStatusCode == "9000"

/-- Method `hasMoreBytesAvailable()`: SW1 equals 61. -/
def hasMoreBytesAvailable (r : ResponseApdu) : Bool :=
  r.getSW1 == "61"

/-- Method `numberOfBytesAvailable()`: `parseInt(getSW2(), 16)`. -/
def numberOfBytesAvailable (r : ResponseApdu) : Nat :=
  parseHexNat r.getSW2

/-- Method `isWrongLength()`: SW1 equals 6c. -/
def isWrongLength (r : ResponseApdu) : Bool :=
  r.getSW1 == "6c"

/-- Method `correctLength()`: `parseInt(getSW2(), 16)`. -/
def correctLength (r : ResponseApdu) : Nat :=
  parseHexNat r.getSW2

end ResponseApdu

/-! ## Status classification table -/

/-- The two shapes of regular expression appearing in the `statusCodes`
table: an exact four-character pattern such as `^9000$`, or a family
pattern anchored on a fixed two-character head followed by exactly two
arbitrary characters. -/
inductive SwPattern where
  | exact (code : String)
  | family (head : String)
deriving Repr, DecidableEq

/-- Whether a pattern matches a status-code string, mirroring
`RegExp.test` for the two regex shapes in the table. -/
def swMatches : SwPattern → String → Bool
  | SwPattern.exact c, s => s == c
  | SwPattern.family h, s => s.length == 4 && s.take 2 == h

/-- Whether a table entry is one of the exact (specific) patterns. -/
def isExactPattern : SwPattern → Bool
  | SwPattern.exact _ => true
  | SwPattern.family _ => false

/-- The `statusCodes` table, in declared order: specific status codes
first, then the generic wildcard families. -/
def statusCodes : List (SwPattern × String) := [
  (SwPattern.exact "9000", "Normal processing"),
  (SwPattern.exact "6200", "No information given"),
  (SwPattern.exact "6281", "Part of return data may be corrupted"),
  (SwPattern.exact "6282", "End of file/record reached before reading Le bytes"),
  (SwPattern.exact "6283", "Selected file invalidated"),
  (SwPattern.exact "6284", "FCI not formatted correctly"),
  (SwPattern.exact "6285", "File control info not in required format"),
  (SwPattern.exact "6286", "Unsuccessful writing"),
  (SwPattern.exact "6300", "Authentication failed"),
  (SwPattern.exact "6381", "Last write filled up file"),
  (SwPattern.exact "6382", "Execution successful after retry"),
  (SwPattern.exact "6500", "No information given"),
  (SwPattern.exact "6581", "Memory failure"),
  (SwPattern.exact "6700", "Wrong length"),
  (SwPattern.exact "6800", "No information given"),
  (SwPattern.exact "6881", "Logical channel not supported"),
  (SwPattern.exact "6882", "Secure messaging not supported"),
  (SwPattern.exact "6981", "Command incompatible with file structure"),
  (SwPattern.exact "6982", "Security status not satisfied"),
  (SwPattern.exact "6983", "Authentication method blocked"),
  (SwPattern.exact "6984", "Referenced data invalidated"),
  (SwPattern.exact "6985", "Conditions of use not satisfied"),
  (SwPattern.exact "6986", "Command not allowed (no current EF)"),
  (SwPattern.exact "6a80", "Incorrect parameters in command data field"),
  (SwPattern.exact "6a81", "Function not supported"),
  (SwPattern.exact "6a82", "File not found"),
  (SwPattern.exact "6a83", "Record not found"),
  (SwPattern.exact "6a84", "Not enough memory space"),
  (SwPattern.exact "6a85", "Lc inconsistent with TLV structure"),
  (SwPattern.exact "6a86", "Incorrect parameters P1-P2"),
  (SwPattern.exact "6a87", "Lc inconsistent with P1-P2"),
  (SwPattern.exact "6a88", "Referenced data not found"),
  (SwPattern.family "61", "More data available"),
  (SwPattern.family "62", "Warning processing"),
  (SwPattern.family "63", "Warning processing"),
  (SwPattern.family "64", "Execution error"),
  (SwPattern.family "65", "Execution error"),
  (SwPattern.family "66", "Reserved for future use"),
  (SwPattern.family "68", "Functions in CLA not supported"),
  (SwPattern.family "69", "Command not allowed"),
  (SwPattern.family "6a", "Wrong parameters P1-P2"),
  (SwPattern.family "6b", "Wrong parameters"),
  (SwPattern.family "6c", "Wrong length Le"),
  (SwPattern.family "6d", "Instruction not supported"),
  (SwPattern.family "6e", "Class not supported"),
  (SwPattern.family "6f", "No precise diagnosis")]

/-- Result of `getStatus()`. -/
structure Status where
  code : String
  meaning : String
deriving Repr, DecidableEq

/-- The scan inside `getStatus()`: walk the table in order and return the
meaning of the first entry whose pattern matches. -/
def findMeaning : List (SwPattern × String) → String → Option String
  | [], _ => none
  | e :: rest, s => if swMatches e.1 s then some e.2 else findMeaning rest s

/-- Method `getStatus()`: first matching table entry, with fallback
meaning "Unknown". -/
def ResponseApdu.getStatus (r : ResponseApdu) : Status :=
  let sc := r.getStatusCode
  match findMeaning statusCodes sc with
  | some m => { code := sc, meaning := m }
  | none => { code := sc, meaning := "Unknown" }

/-- Whether the first character list starts with the second. -/
def startsWithChars : List Char → List Char → Bool
  | _, [] => true
  | [], _ :: _ => false
  | c :: cs, d :: ds => c == d && startsWithChars cs ds

/-- Whether the second character list occurs contiguously inside the
first. -/
def occursIn : List Char → List Char → Bool
  | s, sub =>
    if startsWithChars s sub then true
    else match s with
      | [] => false
      | _ :: cs => occursIn cs sub

/-- Substring test used to state the "meaning mentions ..." claims. -/
def containsSub (s sub : String) : Bool :=
  occursIn s.data sub.data

/-- ASCII lowercasing of one character, as `String.prototype.toLowerCase`
acts on the ASCII meanings in the status table. -/
def lowerChar (c : Char) : Char :=
  if 65 ≤ c.toNat ∧ c.toNat ≤ 90 then Char.ofNat (c.toNat + 32) else c

/-- ASCII lowercasing of a string. -/
def lowerStr (s : String) : String :=
  String.mk (s.data.map lowerChar)

/-! ## Iso7816 application (iso7816-application.ts) -/

/- The `Instructions` table of ISO 7816 instruction codes. -/
namespace Instructions

def APPEND_RECORD : Nat := 0xe2
def ENVELOPE : Nat := 0xc2
def ERASE_BINARY : Nat := 0x0e
def EXTERNAL_AUTHENTICATE : Nat := 0x82
def GET_CHALLENGE : Nat := 0x84
def GET_DATA : Nat := 0xca
def GET_RESPONSE : Nat := 0xc0
def INTERNAL_AUTHENTICATE : Nat := 0x88
def MANAGE_CHANNEL : Nat := 0x70
def PUT_DATA : Nat := 0xda
def READ_BINARY : Nat := 0xb0
def READ_RECORD : Nat := 0xb2
def SELECT_FILE : Nat := 0xa4
def UPDATE_BINARY : Nat := 0xd6
def UPDATE_RECORD : Nat := 0xdc
def VERIFY : Nat := 0x20
def WRITE_BINARY : Nat := 0xd0
def WRITE_RECORD : Nat := 0xd2

end Instructions

/-- The error message thrown by `issueCommand` when the wrong-length
retry bound is exhausted. -/
def maxRetriesMessage (maxRetries : Nat) : String :=
  "Maximum retries (" ++ toString maxRetries ++
    ") exceeded for wrong length response"

/-- The command built by `getResponse(length)`: a GET RESPONSE APDU. -/
def getResponseCommand (length : Nat) : CommandApdu :=
  mkCommandApdu { cla := 0x00, ins := Instructions.GET_RESPONSE,
                  p1 := 0x00, p2 := 0x00, le := length }

/--
The `execute` closure inside `Iso7816.issueCommand`, with the transport
modelled as a stream: `t i` is the buffer the card resolves the i-th
`transmit` call with (calls are numbered globally from `callIdx`; each
loop iteration performs exactly one transmit). `fuel` bounds the
recursion depth, returning `none` when exhausted — the JavaScript
original would still be recursing at that point, so any `some` result is
the value the promise settles with. The result pairs the settled value
(`Except.error` for a rejected promise) with the list of buffers passed
to `transmit`, in order.

Per the source: a 61xx response triggers `getResponse`, which starts a
fresh `issueCommand` with the default bound 3 and a fresh retry counter;
a 6cxx response either rejects once `retries >= maxRetries` or
increments the counter, mutates the same command via `setLe`, and loops;
anything else resolves with the parsed response.
-/
def issueLoop (t : Nat → List Nat) :
    Nat → CommandApdu → Nat → Nat → Nat →
    Option (Except String ResponseApdu × List (List Nat))
  | 0, _, _, _, _ => none
  | fuel + 1, cmd, maxRetries, retries, callIdx =>
    let sentBuf := cmd.toBuffer
    match responseApdu (t callIdx) with
    | Except.error e => some (Except.error e, [sentBuf])
    | Except.ok response =>
      if response.hasMoreBytesAvailable then
        match issueLoop t fuel (getResponseCommand response.numberOfBytesAvailable)
            3 0 (callIdx + 1) with
        | none => none
        | some (res, sent) => some (res, sentBuf :: sent)
      else if response.isWrongLength then
        if maxRetries ≤ retries then
          some (Except.error (maxRetriesMessage maxRetries), [sentBuf])
        else
          match issueLoop t fuel (cmd.setLe response.correctLength)
              maxRetries (retries + 1) (callIdx + 1) with
          | none => none
          | some (res, sent) => some (res, sentBuf :: sent)
      else some (Except.ok response, [sentBuf])

/-- Method `issueCommand(commandApdu, maxRetries = 3)`: run the execute
loop with the retry counter at 0 and the transport stream at its start. -/
def issueCommand (t : Nat → List Nat) (fuel : Nat) (cmd : CommandApdu)
    (maxRetries : Nat := 3) :
    Option (Except String ResponseApdu × List (List Nat)) :=
  issueLoop t fuel cmd maxRetries 0 0

/-- The command built by `selectFile(bytes, p1 = 0x04, p2 = 0x00)`. -/
def selectFileCommand (bytes : List Nat) (p1 : Nat := 0x04)
    (p2 : Nat := 0x00) : CommandApdu :=
  mkCommandApdu { cla := 0x00, ins := Instructions.SELECT_FILE,
                  p1 := p1, p2 := p2, data := some bytes }

/-- The command built by `readRecord(sfi, record)`. -/
def readRecordCommand (sfi record : Nat) : CommandApdu :=
  mkCommandApdu { cla := 0x00, ins := Instructions.READ_RECORD,
                  p1 := record, p2 := (sfi <<< 3) + 4, le := 0 }

/-- Method `readRecord(sfi, record)`: build the READ RECORD command and
issue it with the default retry bound. -/
def readRecord (t : Nat → List Nat) (fuel : Nat) (sfi record : Nat) :
    Option (Except String ResponseApdu × List (List Nat)) :=
  issueCommand t fuel (readRecordCommand sfi record)

/-- The command built by `getData(p1, p2)`. -/
def getDataCommand (p1 p2 : Nat) : CommandApdu :=
  mkCommandApdu { cla := 0x00, ins := Instructions.GET_DATA,
                  p1 := p1, p2 := p2, le := 0 }

end Iso7816

/-! ## Helper lemmas: concrete response evaluations -/

namespace Iso7816

/-- Parsing the two-byte wrong-length response 6c10 succeeds. -/
lemma resp_6c10 : responseApdu [0x6c, 0x10] = Except.ok ⟨[0x6c, 0x10]⟩ := rfl

/-- A 6c10 response is not a continuation response. -/
lemma hasMore_6c10 :
    ResponseApdu.hasMoreBytesAvailable ⟨[0x6c, 0x10]⟩ = false := by decide

/-- A 6c10 response is a wrong-length response. -/
lemma isWrong_6c10 :
    ResponseApdu.isWrongLength ⟨[0x6c, 0x10]⟩ = true := by decide

/-- The corrected length carried by a 6c10 response is 16. -/
lemma correctLength_6c10 :
    ResponseApdu.correctLength ⟨[0x6c, 0x10]⟩ = 16 := by decide

/-- Parsing the two-byte continuation response 6110 succeeds. -/
lemma resp_6110 : responseApdu [0x61, 0x10] = Except.ok ⟨[0x61, 0x10]⟩ := rfl

/-- A 6110 response is a continuation response. -/
lemma hasMore_6110 :
    ResponseApdu.hasMoreBytesAvailable ⟨[0x61, 0x10]⟩ = true := by decide

/-- The number of further bytes announced by a 6110 response is 16. -/
lemma numBytes_6110 :
    ResponseApdu.numberOfBytesAvailable ⟨[0x61, 0x10]⟩ = 16 := by decide

/-- Parsing a six-byte payload response ending in 9000 succeeds. -/
lemma resp_data9000 :
    responseApdu [0x01, 0x02, 0x03, 0x04, 0x90, 0x00] =
      Except.ok ⟨[0x01, 0x02, 0x03, 0x04, 0x90, 0x00]⟩ := rfl

/-- A payload response ending in 9000 is not a continuation response. -/
lemma hasMore_data9000 :
    ResponseApdu.hasMoreBytesAvailable ⟨[0x01, 0x02, 0x03, 0x04, 0x90, 0x00]⟩
      = false := by decide

/-- A payload response ending in 9000 is not a wrong-length response. -/
lemma isWrong_data9000 :
    ResponseApdu.isWrongLength ⟨[0x01, 0x02, 0x03, 0x04, 0x90, 0x00]⟩
      = false := by decide

/-- Parsing the bare success response 9000 succeeds. -/
lemma resp_9000 : responseApdu [0x90, 0x00] = Except.ok ⟨[0x90, 0x00]⟩ := rfl

/-- A 9000 response is not a continuation response. -/
lemma hasMore_9000 :
    ResponseApdu.hasMoreBytesAvailable ⟨[0x90, 0x00]⟩ = false := by decide

/-- A 9000 response is not a wrong-length response. -/
lemma isWrong_9000 :
    ResponseApdu.isWrongLength ⟨[0x90, 0x00]⟩ = false := by decide

/-- Applying `setLe` twice keeps only the second trailing byte. -/
lemma setLe_setLe (c : CommandApdu) (a b : Nat) :
    (c.setLe a).setLe b = c.setLe b := by
  simp [CommandApdu.setLe]

/-- Against a transport that always answers 6c10, the execute loop
rejects with the max-retries message once the retry counter reaches the
bound, transmitting the original command once and the corrected command
on every retry. -/
lemma issueLoop_const_wrong (t : Nat → List Nat) (ht : ∀ i, t i = [0x6c, 0x10])
    (m : Nat) :
    ∀ fuel retries cmd i, m - retries < fuel →
      issueLoop t fuel cmd m retries i =
        some (Except.error (maxRetriesMessage m),
          cmd.toBuffer ::
            List.replicate (m - retries) ((cmd.setLe 16).toBuffer)) := by
  intro fuel
  induction fuel with
  | zero => intro r cmd i h; omega
  | succ fuel ih =>
    intro r cmd i h
    by_cases hr : m ≤ r
    · simp only [issueLoop, ht i, resp_6c10, hasMore_6c10, isWrong_6c10]
      simp [hr, Nat.sub_eq_zero_of_le hr]
    · push_neg at hr
      have hrec := ih (r + 1) (cmd.setLe 16) (i + 1) (by omega)
      rw [setLe_setLe] at hrec
      simp only [issueLoop, ht i, resp_6c10, hasMore_6c10, isWrong_6c10,
        correctLength_6c10]
      simp only [Bool.false_eq_true, if_false, if_true]
      rw [if_neg (by omega), hrec]
      have : m - r = (m - (r + 1)) + 1 := by omega
      rw [this, List.replicate_succ]

/-- The loop of `getStatus` returns the first table entry whose pattern
matches, i.e. agrees with `List.find?` over the table. -/
lemma findMeaning_eq_find? (s : String) :
    ∀ l : List (SwPattern × String),
      findMeaning l s = ((l.find? fun e => swMatches e.1 s).map Prod.snd) := by
  intro l
  induction l with
  | nil => rfl
  | cons e rest ih =>
    by_cases h : swMatches e.1 s
    · simp [findMeaning, List.find?_cons, h]
    · simp only [findMeaning, List.find?_cons]
      rw [if_neg (by simpa using h)]
      simp only [Bool.not_eq_true] at h
      rw [h]
      exact ih

/-! ## Claim theorems -/

/-- Claim C1: for every maxRetries bound m and every transport whose
transmit always resolves with the two bytes 6c 10, `issueCommand` fails
with the max-retries error — identifiable as such (its message mentions
max and retr, matching the test regex, and differs from the generic
malformed-response error) — after exactly m + 1 transmit calls; the
wrong-length retry loop is bounded (any fuel above m suffices) and never
infinite. -/
theorem c1_max_retries (m : Nat) (cmd : CommandApdu) (t : Nat → List Nat)
    (ht : ∀ i, t i = [0x6c, 0x10]) (fuel : Nat) (hfuel : m < fuel) :
    issueCommand t fuel cmd m =
      some (Except.error (maxRetriesMessage m),
        cmd.toBuffer :: List.replicate m ((cmd.setLe 16).toBuffer)) ∧
    (cmd.toBuffer :: List.replicate m ((cmd.setLe 16).toBuffer)).length
      = m + 1 ∧
    containsSub (lowerStr (maxRetriesMessage m)) "max" = true ∧
    containsSub (lowerStr (maxRetriesMessage m)) "retr" = true ∧
    maxRetriesMessage m ≠ malformedResponseMessage := by
  refine ⟨?_, by simp, rfl, rfl, ?_⟩
  · have := issueLoop_const_wrong t ht m fuel 0 cmd 0 (by omega)
    simpa [issueCommand] using this
  · intro hcontr
    have hM : (maxRetriesMessage m).data.head? = some 'M' := rfl
    rw [hcontr] at hM
    exact absurd hM (by decide)

/-- Claim C1 witness: the bound-3 instance against the constant 6c10
transport, with fuel 4, fails with the max-retries error after 4
transmissions. -/
theorem c1_max_retries_witness :
    issueCommand (fun _ => [0x6c, 0x10]) 4
        (mkCommandApdu { cla := 0x00, ins := 0xa4, p1 := 0x04, p2 := 0x00 }) 3 =
      some (Except.error (maxRetriesMessage 3),
        (mkCommandApdu { cla := 0x00, ins := 0xa4, p1 := 0x04,
                         p2 := 0x00 }).toBuffer ::
          List.replicate 3
            (((mkCommandApdu { cla := 0x00, ins := 0xa4, p1 := 0x04,
                               p2 := 0x00 }).setLe 16).toBuffer)) ∧
    ((mkCommandApdu { cla := 0x00, ins := 0xa4, p1 := 0x04,
                      p2 := 0x00 }).toBuffer ::
        List.replicate 3
          (((mkCommandApdu { cla := 0x00, ins := 0xa4, p1 := 0x04,
                             p2 := 0x00 }).setLe 16).toBuffer)).length
      = 3 + 1 ∧
    containsSub (lowerStr (maxRetriesMessage 3)) "max" = true ∧
    containsSub (lowerStr (maxRetriesMessage 3)) "retr" = true ∧
    maxRetriesMessage 3 ≠ malformedResponseMessage :=
  c1_max_retries 3
    (mkCommandApdu { cla := 0x00, ins := 0xa4, p1 := 0x04, p2 := 0x00 })
    (fun _ => [0x6c, 0x10]) (fun _ => rfl) 4 (by decide)

/-- Claim C2: for every transport that resolves the first transmit with
61 10 and every subsequent transmit with 01 02 03 04 90 00,
`issueCommand` makes exactly 2 transmit calls, the second command sent is
the GET RESPONSE APDU with cla 00, ins c0, p1 00, p2 00, le 10, and the
returned response has status word 9000 with `isOk` true. -/
theorem c2_continuation (cmd : CommandApdu) (t : Nat → List Nat)
    (h0 : t 0 = [0x61, 0x10])
    (h1 : ∀ i, 0 < i → t i = [0x01, 0x02, 0x03, 0x04, 0x90, 0x00])
    (fuel : Nat) (hfuel : 2 ≤ fuel) :
    issueCommand t fuel cmd =
      some (Except.ok ⟨[0x01, 0x02, 0x03, 0x04, 0x90, 0x00]⟩,
        [cmd.toBuffer, (getResponseCommand 0x10).toBuffer]) ∧
    [cmd.toBuffer, (getResponseCommand 0x10).toBuffer].length = 2 ∧
    (getResponseCommand 0x10).toByteArray = [0x00, 0xc0, 0x00, 0x00, 0x10] ∧
    ResponseApdu.isOk ⟨[0x01, 0x02, 0x03, 0x04, 0x90, 0x00]⟩ = true ∧
    ResponseApdu.getStatusCode ⟨[0x01, 0x02, 0x03, 0x04, 0x90, 0x00]⟩
      = "9000" := by
  obtain ⟨k, rfl⟩ : ∃ k, fuel = k + 2 := ⟨fuel - 2, by omega⟩
  refine ⟨?_, rfl, by decide, by decide, by decide⟩
  show issueLoop t (k + 2) cmd 3 0 0 = _
  simp only [issueLoop, h0, resp_6110, hasMore_6110, numBytes_6110, if_true]
  simp only [h1 1 (by omega), resp_data9000, hasMore_data9000, isWrong_data9000]
  simp

/-- Claim C2 witness: the concrete two-response transport yields exactly
two transmissions, a GET RESPONSE second command, and a 9000 result. -/
theorem c2_continuation_witness :
    issueCommand
        (fun i => if i = 0 then [0x61, 0x10]
                  else [0x01, 0x02, 0x03, 0x04, 0x90, 0x00]) 2
        (mkCommandApdu { cla := 0x00, ins := 0xa4, p1 := 0x04, p2 := 0x00 }) =
      some (Except.ok ⟨[0x01, 0x02, 0x03, 0x04, 0x90, 0x00]⟩,
        [(mkCommandApdu { cla := 0x00, ins := 0xa4, p1 := 0x04,
                          p2 := 0x00 }).toBuffer,
         (getResponseCommand 0x10).toBuffer]) ∧
    [(mkCommandApdu { cla := 0x00, ins := 0xa4, p1 := 0x04,
                      p2 := 0x00 }).toBuffer,
     (getResponseCommand 0x10).toBuffer].length = 2 ∧
    (getResponseCommand 0x10).toByteArray = [0x00, 0xc0, 0x00, 0x00, 0x10] ∧
    ResponseApdu.isOk ⟨[0x01, 0x02, 0x03, 0x04, 0x90, 0x00]⟩ = true ∧
    ResponseApdu.getStatusCode ⟨[0x01, 0x02, 0x03, 0x04, 0x90, 0x00]⟩
      = "9000" :=
  c2_continuation
    (mkCommandApdu { cla := 0x00, ins := 0xa4, p1 := 0x04, p2 := 0x00 })
    (fun i => if i = 0 then [0x61, 0x10]
              else [0x01, 0x02, 0x03, 0x04, 0x90, 0x00])
    rfl (fun i hi => if_neg (by omega)) 2 (by omega)

end Iso7816

namespace Iso7816

/-- Claim C3: for every cla, ins, p1, p2 in byte range, every data list of
length at most 255 and le 0, the encoded byte sequence has length
4 + 1 + L + 1 and equals the header, then the lc byte L, then the data,
then the single trailing byte 0. -/
theorem c3_data_encoding (cla insb p1 p2 : Nat) (d : List Nat)
    (hcla : cla ≤ 255) (hins : insb ≤ 255) (hp1 : p1 ≤ 255) (hp2 : p2 ≤ 255)
    (hd : d.length ≤ 255) :
    (mkCommandApdu { cla := cla, ins := insb, p1 := p1, p2 := p2,
                     data := some d, le := 0 }).toByteArray.length
        = 4 + 1 + d.length + 1 ∧
    (mkCommandApdu { cla := cla, ins := insb, p1 := p1, p2 := p2,
                     data := some d, le := 0 }).toByteArray
        = [cla, insb, p1, p2] ++ [d.length] ++ d ++ [0] := by
  constructor
  · simp [mkCommandApdu, mkBytes, CommandApdu.toByteArray]
    omega
  · simp [mkCommandApdu, mkBytes, CommandApdu.toByteArray]

/-- Claim C3 witness: the SELECT command of the spec round-trip example
encodes as header, lc 4, four data bytes, trailing 0. -/
theorem c3_data_encoding_witness :
    (mkCommandApdu { cla := 0x00, ins := 0xa4, p1 := 0x04, p2 := 0x00,
                     data := some [0x31, 0x50, 0x41, 0x59],
                     le := 0 }).toByteArray
      = [0x00, 0xa4, 0x04, 0x00] ++ [4] ++ [0x31, 0x50, 0x41, 0x59] ++ [0] :=
  (c3_data_encoding 0x00 0xa4 0x04 0x00 [0x31, 0x50, 0x41, 0x59]
    (by decide) (by decide) (by decide) (by decide) (by decide)).2

/-- Claim C4: constructing a ResponseApdu fails with the
malformed-response error for every input of fewer than 2 bytes, and
succeeds for every input of exactly 2 bytes. -/
theorem c4_parse_length (buf : List Nat) :
    (buf.length < 2 → responseApdu buf = Except.error malformedResponseMessage) ∧
    (buf.length = 2 → responseApdu buf = Except.ok { _buffer := buf }) := by
  constructor
  · intro h
    simp [responseApdu, h]
  · intro h
    simp [responseApdu, h]

/-- Claim C4 witness: empty and single-byte inputs fail, a two-byte input
succeeds. -/
theorem c4_parse_length_witness :
    responseApdu [] = Except.error malformedResponseMessage ∧
    responseApdu [0x90] = Except.error malformedResponseMessage ∧
    responseApdu [0x90, 0x00] = Except.ok { _buffer := [0x90, 0x00] } :=
  ⟨(c4_parse_length []).1 (by decide), (c4_parse_length [0x90]).1 (by decide),
   (c4_parse_length [0x90, 0x00]).2 (by decide)⟩

/-- Claim C5: `getStatus` scans the table in declared order and returns
the first match with fallback Unknown; every exact pattern precedes every
wildcard family in the table; 9000 classifies as Normal processing, 6a82
as File not found (the exact entry winning over the 6a wildcard, and the
meaning mentions not found), 6300 as Authentication failed (mentioning
authentication), and aabb as Unknown. -/
theorem c5_status_classification :
    (∀ r : ResponseApdu,
      r.getStatus =
        { code := r.getStatusCode,
          meaning :=
            ((statusCodes.find? fun e => swMatches e.1 r.getStatusCode).map
              Prod.snd).getD "Unknown" }) ∧
    ((statusCodes.take 32).all (fun e => isExactPattern e.1) = true ∧
      (statusCodes.drop 32).all (fun e => !isExactPattern e.1) = true) ∧
    ResponseApdu.getStatus ⟨[0x90, 0x00]⟩ = ⟨"9000", "Normal processing"⟩ ∧
    (ResponseApdu.getStatus ⟨[0x6a, 0x82]⟩ = ⟨"6a82", "File not found"⟩ ∧
      containsSub (ResponseApdu.getStatus ⟨[0x6a, 0x82]⟩).meaning "not found"
        = true) ∧
    (ResponseApdu.getStatus ⟨[0x63, 0x00]⟩ = ⟨"6300", "Authentication failed"⟩ ∧
      containsSub (lowerStr (ResponseApdu.getStatus ⟨[0x63, 0x00]⟩).meaning)
        "authentication" = true) ∧
    (ResponseApdu.getStatus ⟨[0xaa, 0xbb]⟩).meaning = "Unknown" := by
  refine ⟨?_, by decide, by decide, ⟨by decide, by decide⟩,
    ⟨by decide, by decide⟩, by decide⟩
  intro r
  show (match findMeaning statusCodes r.getStatusCode with
    | some m => ({ code := r.getStatusCode, meaning := m } : Status)
    | none => { code := r.getStatusCode, meaning := "Unknown" }) = _
  rw [findMeaning_eq_find? r.getStatusCode statusCodes]
  cases (statusCodes.find? fun e => swMatches e.1 r.getStatusCode).map Prod.snd
    <;> rfl

/-- Claim C6: for every constructed CommandApdu and every le value,
`setLe` keeps the length of the encoded byte sequence, keeps every byte
before the last unchanged, and sets the last byte to the new value. -/
theorem c6_setLe_only_last (o : CommandApduOptions) (x : Nat) :
    ((mkCommandApdu o).setLe x).toByteArray.length =
      (mkCommandApdu o).toByteArray.length ∧
    ((mkCommandApdu o).setLe x).toByteArray.dropLast =
      (mkCommandApdu o).toByteArray.dropLast ∧
    ((mkCommandApdu o).setLe x).toByteArray.getLast? = some x := by
  refine ⟨?_, ?_, ?_⟩
  · simp [CommandApdu.setLe, CommandApdu.toByteArray, mkCommandApdu, mkBytes]
  · simp [CommandApdu.setLe, CommandApdu.toByteArray, mkCommandApdu, mkBytes]
  · simp [CommandApdu.setLe, CommandApdu.toByteArray]

/-- Claim C7 counterexample: with no data and no le, the encoded byte
sequence has length 5, not 4 as the four-case claim states — the
constructor always appends the default le byte 0. -/
theorem c7_counterexample :
    (mkCommandApdu { cla := 0x00, ins := 0xa4, p1 := 0x04,
                     p2 := 0x00 }).toByteArray.length = 5 ∧
    ¬ (mkCommandApdu { cla := 0x00, ins := 0xa4, p1 := 0x04,
                       p2 := 0x00 }).toByteArray.length = 4 := by decide

/-- Claim C7 amended: the encoded byte sequence has length exactly 5
whenever data is absent (whatever le is), and 4 + 1 + L + 1 whenever a
data list of length L is present (whatever le is); the four ISO cases
collapse to these two because a trailing le byte is always appended. -/
theorem c7_encoded_length (o : CommandApduOptions) :
    (mkCommandApdu o).toByteArray.length =
      match o.data with
      | none => 5
      | some d => 4 + 1 + d.length + 1 := by
  cases h : o.data
  · simp [mkCommandApdu, mkBytes, CommandApdu.toByteArray, h]
  · simp [mkCommandApdu, mkBytes, CommandApdu.toByteArray, h]
    omega

/-- Claim C8 counterexample: constructing with a 256-byte data list does
not fail — the constructor is total and produces the encoding with the
out-of-byte-range value 256 sitting in the lc position. -/
theorem c8_counterexample :
    (mkCommandApdu { cla := 0x00, ins := 0xa4, p1 := 0x04, p2 := 0x00,
                     data := some (List.replicate 256 0) }).toByteArray
      = [0x00, 0xa4, 0x04, 0x00] ++ [256] ++ List.replicate 256 0 ++ [0] ∧
    (mkCommandApdu { cla := 0x00, ins := 0xa4, p1 := 0x04, p2 := 0x00,
                     data := some (List.replicate 256 0) }).toByteArray.get? 4
      = some 256 := by
  constructor
  · simp [mkCommandApdu, mkBytes, CommandApdu.toByteArray]
  · rfl

/-- Claim C8 amended: for every construction input whose data list is
longer than 255 bytes, construction succeeds anyway (no validation) and
the lc position of the encoding holds the full data length, a value that
does not fit a byte. -/
theorem c8_oversized_data (o : CommandApduOptions) (d : List Nat)
    (hd : o.data = some d) (h : 255 < d.length) :
    (mkCommandApdu o).toByteArray =
      [o.cla, o.ins, o.p1, o.p2] ++ d.length :: (d ++ [o.le]) ∧
    (mkCommandApdu o).toByteArray.get? 4 = some d.length := by
  constructor
  · simp [mkCommandApdu, mkBytes, CommandApdu.toByteArray, hd]
  · simp [mkCommandApdu, mkBytes, CommandApdu.toByteArray, hd]

/-- Claim C8 amended witness: the 256-byte instance constructs with lc
position 256. -/
theorem c8_oversized_data_witness :
    (mkCommandApdu { cla := 0x00, ins := 0xa4, p1 := 0x04, p2 := 0x00,
                     data := some (List.replicate 256 0) }).toByteArray.get? 4
      = some 256 :=
  (c8_oversized_data _ (List.replicate 256 0) rfl (by simp)).2

/-- Claim C9: `readRecord(sfi, record)` builds a command APDU with cla 00,
ins b2, p1 record and p2 equal to sfi shifted left by 3 plus 4 — in
particular p1 1 and p2 14 for sfi 2, record 1 — and issues exactly that
command over the transport. -/
theorem c9_readRecord (sfi record : Nat) (t : Nat → List Nat)
    (h : t 0 = [0x90, 0x00]) :
    (readRecordCommand sfi record).toByteArray =
      [0x00, 0xb2, record, (sfi <<< 3) + 4, 0] ∧
    (readRecordCommand 2 1).toByteArray = [0x00, 0xb2, 0x01, 0x14, 0x00] ∧
    readRecord t 1 sfi record =
      some (Except.ok ⟨[0x90, 0x00]⟩,
        [(readRecordCommand sfi record).toBuffer]) := by
  refine ⟨?_, by decide, ?_⟩
  · simp [readRecordCommand, mkCommandApdu, mkBytes, CommandApdu.toByteArray,
      Instructions.READ_RECORD]
  · show issueLoop t 1 (readRecordCommand sfi record) 3 0 0 = _
    simp only [issueLoop, h, resp_9000, hasMore_9000, isWrong_9000]
    simp

/-- Claim C9 witness: reading record 1 of short file identifier 2 against
a transport answering 9000 transmits the built READ RECORD buffer. -/
theorem c9_readRecord_witness :
    readRecord (fun _ => [0x90, 0x00]) 1 2 1 =
      some (Except.ok ⟨[0x90, 0x00]⟩, [(readRecordCommand 2 1).toBuffer]) :=
  (c9_readRecord 2 1 (fun _ => [0x90, 0x00]) rfl).2.2

/-- Claim C10: two construction inputs agreeing on cla, ins, p1, p2, data
and le but differing arbitrarily in the optional size field produce
identical encoded byte sequences through toByteArray, toBuffer and the
hex rendering: size never influences the wire encoding. -/
theorem c10_size_no_wire_effect (o₁ o₂ : CommandApduOptions)
    (hcla : o₁.cla = o₂.cla) (hins : o₁.ins = o₂.ins) (hp1 : o₁.p1 = o₂.p1)
    (hp2 : o₁.p2 = o₂.p2) (hdata : o₁.data = o₂.data) (hle : o₁.le = o₂.le) :
    (mkCommandApdu o₁).toByteArray = (mkCommandApdu o₂).toByteArray ∧
    (mkCommandApdu o₁).toBuffer = (mkCommandApdu o₂).toBuffer ∧
    (mkCommandApdu o₁).toHexString = (mkCommandApdu o₂).toHexString := by
  have hb : mkBytes o₁ = mkBytes o₂ := by
    simp [mkBytes, hcla, hins, hp1, hp2, hdata, hle]
  exact ⟨by simp [mkCommandApdu, CommandApdu.toByteArray, hb],
    by simp [mkCommandApdu, CommandApdu.toBuffer, hb],
    by simp [mkCommandApdu, CommandApdu.toHexString, hb]⟩

/-- Claim C10 witness: a present and an absent size, all other fields
equal, give equal encodings. -/
theorem c10_size_no_wire_effect_witness :
    (mkCommandApdu { cla := 0x00, ins := 0xa4, p1 := 0x04, p2 := 0x00,
                     data := some [0x31, 0x50, 0x41, 0x59], le := 0,
                     size := none }).toByteArray
      = (mkCommandApdu { cla := 0x00, ins := 0xa4, p1 := 0x04, p2 := 0x00,
                         data := some [0x31, 0x50, 0x41, 0x59], le := 0,
                         size := some 99 }).toByteArray :=
  (c10_size_no_wire_effect _ _ rfl rfl rfl rfl rfl rfl).1

end Iso7816
